import Mathlib

/-! Verification of the k8s-backup orchestration workflow.

This file shallowly embeds the Go program in `main.go` and `config.go`:
the `Run` workflow (scale down, archive, upload, restore, notify, with its
`defer`-based compensation and cleanup), the quiesce controller
(`scaleDown`, `wait`, `getPodTemplateHash`, `scale`, `getReplicas`) and
the configuration validation (`ResourceConfig.Validate`, and the resource
identifier parsing in `NewApplication`).

External collaborators (the Kubernetes API server, the S3 endpoint, the
filesystem) are modelled by an oracle (`World`) giving the outcome of each
call the program makes; the embedding returns the program's result
together with the trace of observable calls (`Event`), in the order the
program performs them.  Go's `defer` statements run in LIFO order on
return; the traces below inline that order explicitly.
-/

deriving instance DecidableEq for Except

namespace K8sBackup

/-- Go errors as produced by `errors.New` / `fmt.Errorf`.
`wrap m e` is `fmt.Errorf(m ++ ": %w", e)`; `join a b` is
`fmt.Errorf("%w: %w", a, b)`; `msg s` is a leaf error (an external
collaborator failure or `errors.New`). -/
inductive GoError where
  | msg (s : String)
  | wrap (m : String) (e : GoError)
  | join (a b : GoError)
  deriving DecidableEq, Repr

/-- The leaf causes of an error: the underlying failures an operator can
read out of the rendered error text (each leaf's message appears verbatim
in the `Error()` string of the wrapped error). -/
def GoError.causes : GoError → List String
  | .msg s => [s]
  | .wrap _ e => e.causes
  | .join a b => a.causes ++ b.causes

/-- The Go contexts the workflow creates.  `mainRun` is the context created
at the top of `Application.Run` (from `context.Background()` with a
3-minute timeout); `restoreScope` is the fresh context created inside the
scale-up `defer` (from `context.Background()` with a 1-minute timeout),
independent of `mainRun`. -/
inductive CtxTag where
  | mainRun
  | restoreScope
  deriving DecidableEq, Repr

/-- Timeout, in seconds, attached to each context
(`3*time.Minute` for the run, `time.Minute` for the restore scope). -/
def ctxTimeoutSeconds : CtxTag → Nat
  | .mainRun => 180
  | .restoreScope => 60

/-- Observable calls made by `Application.Run` and its callees, in program
order.  `setScale n c ok` is a PATCH of the scale subresource to `n`
replicas issued under context `c`, with `ok` reporting whether the API
server accepted it. -/
inductive Event where
  | getScale (c : CtxTag)
  | setScale (n : Nat) (c : CtxTag) (ok : Bool)
  | waitForPods
  | archiveCall (ok : Bool)
  | uploadCall (ok : Bool)
  | removeArchiveFile
  | notifyCall (success : Bool)
  deriving DecidableEq, Repr

/-- Outcomes of the external calls one run makes, fixed up front: the
result of the scale read, of the scale-to-zero write, of the optional
wait, of archiving, of uploading, and of the restore scale write.  A
`.error s` models any collaborator failure, including one induced by
expiry of the deadline of the context the call runs under. -/
structure World where
  readReplicas : Except String Nat
  scaleZero : Except String Unit
  waitEnabled : Bool
  waitResult : Except String Unit
  archiveResult : Except String Unit
  uploadResult : Except String Unit
  restoreWrite : Except String Unit
  deriving DecidableEq, Repr

/-- Whether an `Except`-valued call outcome is a success. -/
def exceptOk : Except String Unit → Bool
  | .ok _ => true
  | .error _ => false

/-- Model of `Application.scale`: issues the PATCH on the scale subresource and
wraps a failure as `failed to scale to <n>: <cause>`. -/
def scaleCall (c : CtxTag) (n : Nat) (res : Except String Unit) :
    Option GoError × Event :=
  match res with
  | .ok _ => (none, .setScale n c true)
  | .error e =>
      (some (.wrap ("failed to scale to " ++ toString n) (.msg e)),
       .setScale n c false)

/-- Model of `Application.getReplicas`: the GET on the scale subresource, wrapping a
failure as `failed to get resource: <cause>`.  (The JSON unmarshalling of
a well-formed server response cannot fail and is abstracted away.) -/
def getReplicasCall (w : World) : Except GoError Nat × Event :=
  match w.readReplicas with
  | .ok n => (.ok n, .getScale .mainRun)
  | .error e => (.error (.wrap "failed to get resource" (.msg e)), .getScale .mainRun)

/-- Model of `Application.scaleDown`: reads the current replica count, scales to
zero, and optionally waits for the pods to terminate.  A wait failure is
only logged (`lg.Warn`) and does not affect the result.  On success the
returned replica count is the one captured by the `undo` closure. -/
def scaleDown (w : World) : Except GoError Nat × List Event :=
  match getReplicasCall w with
  | (.error e, ev) =>
      (.error (.wrap "failed to get current number of replicas" e), [ev])
  | (.ok n, ev) =>
      match scaleCall .mainRun 0 w.scaleZero with
      | (some e, ev2) => (.error (.wrap "failed to scale down" e), [ev, ev2])
      | (none, ev2) =>
          (.ok n, [ev, ev2] ++ if w.waitEnabled then [Event.waitForPods] else [])

/-- The scale-up `defer` in `Application.Run`: runs the restore action
under the fresh `restoreScope` context.  When the restore write fails, the
source replaces the restore error with
`fmt.Errorf("failed to scale up: %w", err)` — wrapping the *outer* `err`
(the main-path error), not `scaleErr` — before combining, so the restore
failure's own cause is discarded (it is only logged).  With `err` nil, Go
renders the nil `%w` operand as `%!w(<nil>)` and the result wraps
nothing. -/
def restoreDefer (n : Nat) (w : World) (mainErr : Option GoError) :
    Option GoError × List Event :=
  match scaleCall .restoreScope n w.restoreWrite with
  | (none, ev) => (mainErr, [ev])
  | (some _scaleUpErr, ev) =>
      match mainErr with
      | some m => (some (.join m (.wrap "failed to scale up" m)), [ev])
      | none => (some (.msg "failed to scale up: %!w(<nil>)"), [ev])

/-- Model of `Application.Run`: the whole workflow.  Result: the error `Run`
returns (after all `defer`s ran) and the trace of observable calls.
`defer`s run LIFO on every return path: the archive-file deletion (only
registered once `archive` succeeded), then the restore scope, then the
notification (which reads the final `err`). -/
def Run (w : World) : Option GoError × List Event :=
  match scaleDown w with
  | (.error e, ev) =>
      (some (.wrap "failed to scale down" e), ev ++ [.notifyCall false])
  | (.ok n, ev) =>
      match w.archiveResult with
      | .error e =>
          let mainErr := some (GoError.wrap "failed to archive" (.msg e))
          let r := restoreDefer n w mainErr
          (r.1, ev ++ [.archiveCall false] ++ r.2 ++ [.notifyCall r.1.isNone])
      | .ok _ =>
          let up :=
            match w.uploadResult with
            | .error e =>
                (some (GoError.wrap "failed to upload to S3" (.msg e)),
                 Event.uploadCall false)
            | .ok _ => (none, Event.uploadCall true)
          let r := restoreDefer n w up.1
          (r.1,
           ev ++ [.archiveCall true, up.2, .removeArchiveFile] ++ r.2
              ++ [.notifyCall r.1.isNone])

/-- Whether an event is the restore-scope scale write. -/
def isRestoreWrite : Event → Bool
  | .setScale _ .restoreScope _ => true
  | _ => false

/-- Whether an event is any scale write. -/
def isSetScale : Event → Bool
  | .setScale _ _ _ => true
  | _ => false

/-- Whether an event is the archive stage being entered. -/
def isArchiveCall : Event → Bool
  | .archiveCall _ => true
  | _ => false

/-- The replica count of the workload after a trace: each *accepted* scale
write sets the count, failed writes leave it unchanged. -/
def applyScale (start : Nat) (evs : List Event) : Nat :=
  evs.foldl
    (fun acc e =>
      match e with
      | .setScale m _ true => m
      | _ => acc)
    start

/-! Section: the wait loop (`Application.wait`). -/

/-- Model of the polling loop of `Application.wait`: `polls k` is the outcome of the
`k`-th pod-list call (an error, or the number of pods matching the
selector); the context deadline expiring surfaces as the list call
erroring.  The Go loop lists the pods, returns a wrapped error on a list
failure, breaks when the list is empty, and otherwise sleeps 5 seconds
and polls again.  `fuel` bounds the recursion; `none` models the loop
still running after `fuel` polls.  On termination the result carries the
total number of polls performed. -/
def podPollLoop (polls : Nat → Except String Nat) : Nat → Nat →
    Option (Except GoError Unit × Nat)
  | _, 0 => none
  | k, fuel + 1 =>
      match polls k with
      | .error e => some (.error (.wrap "failed to list pods" (.msg e)), k + 1)
      | .ok 0 => some (.ok (), k + 1)
      | .ok (_ + 1) => podPollLoop polls (k + 1) fuel

/-- Model of `Application.wait`: resolves the pod-template-hash (its failure is
wrapped as `failed to get pod template hash`), then runs the polling loop
from poll index 0. -/
def wait (hashResult : Except GoError String) (polls : Nat → Except String Nat)
    (fuel : Nat) : Option (Except GoError Unit × Nat) :=
  match hashResult with
  | .error e => some (.error (.wrap "failed to get pod template hash" e), 0)
  | .ok _hash => podPollLoop polls 0 fuel

/-! Section: pod-template-hash discovery (`Application.getPodTemplateHash`). -/

/-- A Kubernetes owner reference, as matched by the discovery loop. -/
structure OwnerReference where
  kind : String
  name : String
  deriving DecidableEq, Repr

/-- The fields of a ReplicaSet the discovery code reads.  `labels` is the
Go label map; a lookup of an absent key yields the zero value `""`. -/
structure ReplicaSetRec where
  name : String
  ownerReferences : List OwnerReference
  labels : List (String × String)
  deriving DecidableEq, Repr

/-- Go map lookup with the string zero value for absent keys. -/
def lookupLabel (labels : List (String × String)) (key : String) : String :=
  match labels.find? (fun p => p.1 == key) with
  | some p => p.2
  | none => ""

/-- Whether a ReplicaSet has an owner reference matching the target's kind
and name (the inner loop of the discovery code, whose `break` leaves the
rest of the owner references unexamined). -/
def matchOwner (kind name : String) (rs : ReplicaSetRec) : Bool :=
  rs.ownerReferences.any (fun r => r.kind == kind && r.name == name)

/-- The outer discovery loop: the `replicaset` variable is overwritten at
each matching item and never reset, so the *last* matching item of the
list wins; with no match it stays `nil` (`none`). -/
def selectOwned (kind name : String) (items : List ReplicaSetRec) :
    Option ReplicaSetRec :=
  items.foldl (fun acc item => if matchOwner kind name item then some item else acc)
    none

/-- Result of running a Go function that can return a value, return an
error, or panic (here: dereference a nil pointer). -/
inductive GoResult (α : Type) where
  | ok (a : α)
  | err (e : GoError)
  | panicked
  deriving DecidableEq, Repr

/-- Calls `getPodTemplateHash` makes against the API server. -/
inductive K8sCall where
  | listReplicaSets
  | getReplicaSet (name : String)
  deriving DecidableEq, Repr

/-- Model of `Application.getPodTemplateHash`.  The source chooses the branch with
`if a.resourceName != "replicasets"` — it compares the workload's *name*
against the literal string `"replicasets"` (the `resourceType` plural),
not the resource kind.  On the list branch, if no item carries a matching
owner reference the `replicaset` pointer stays nil and
`replicaset.Labels["pod-template-hash"]` panics. -/
def getPodTemplateHash (resourceName resourceKind : String)
    (listResult : Except String (List ReplicaSetRec))
    (getResult : Except String ReplicaSetRec) :
    GoResult String × List K8sCall :=
  if resourceName ≠ "replicasets" then
    match listResult with
    | .error e =>
        (.err (.wrap "failed to list replicasets" (.msg e)), [.listReplicaSets])
    | .ok items =>
        match selectOwned resourceKind resourceName items with
        | none => (.panicked, [.listReplicaSets])
        | some rs =>
            (.ok (lookupLabel rs.labels "pod-template-hash"), [.listReplicaSets])
  else
    match getResult with
    | .error e =>
        (.err (.wrap "failed to get replicaset" (.msg e)),
         [.getReplicaSet resourceName])
    | .ok rs =>
        (.ok (lookupLabel rs.labels "pod-template-hash"),
         [.getReplicaSet resourceName])

/-! Section: resource identifier parsing and validation
(`ResourceConfig.Validate` in `config.go`, and the `strings.SplitN` plus
`switch` in `NewApplication`) -/

/-- Split a character list at its first `'/'`, or `none` when there is no
`'/'`: the observable behaviour of Go's `strings.SplitN(s, "/", 2)`
(one part without a separator, otherwise the part before the first
separator and the whole rest). -/
def splitFirstSlash : List Char → Option (List Char × List Char)
  | [] => none
  | c :: cs =>
      if c = '/' then some ([], cs)
      else
        match splitFirstSlash cs with
        | none => none
        | some (a, b) => some (c :: a, b)

/-- The `TYPE` strings accepted by the `switch` in `validID`. -/
def validTypes : List String :=
  ["deployment", "deployments", "statefulset", "statefulsets",
   "replicaset", "replicasets"]

/-- The `validID` closure in `ResourceConfig.Validate`: `SplitN` on `/`,
reject a single part, `switch` on the (exact, lowercase) type, then
reject an empty name.  Returns the validation error message, or `none`
for a valid identifier. -/
def validID (s : String) : Option String :=
  match splitFirstSlash s.data with
  | none => some "must be TYPE/NAME"
  | some (t, n) =>
      if validTypes.contains (String.mk t) then
        if n.isEmpty then some "NAME must not be empty" else none
      else some "TYPE must be deployment(s), statefulset(s) or replicaset(s)"

/-- Model of `ResourceConfig.Validate`: `id` is required (non-blank) and must pass
`validID`; `namespace` is required.  Returns the first failing rule's
message (`validation.All` reports rule failures; only failure versus
success matters below). -/
def resourceConfigValidate (id ns : String) : Option String :=
  if id = "" then some "id: cannot be blank"
  else
    match validID id with
    | some e => some ("id: " ++ e)
    | none => if ns = "" then some "namespace: cannot be blank" else none

/-- The `switch resourceParts[0]` in `NewApplication`, producing
`(resourceType, resourceKind)`.  The switch has no default case, so an
unmatched type leaves both fields at the zero value `""`. -/
def normalizeResource (t : String) : String × String :=
  if t = "deployment" ∨ t = "deployments" then ("deployments", "Deployment")
  else if t = "statefulset" ∨ t = "statefulsets" then ("statefulsets", "StatefulSet")
  else if t = "replicaset" ∨ t = "replicasets" then ("replicasets", "ReplicaSet")
  else ("", "")

/-- The setup steps of `NewApplication`, in source order.  `validateCfg`
is `Config.Validate`; the client constructions (`rest.InClusterConfig`,
`kubernetes.NewForConfig`, `tgbotapi.NewBotAPI`, `minio.New`) — the steps
that can reach the network — all come after it, and the resource
identifier is split and normalized last. -/
inductive SetupStep where
  | envParse
  | validateCfg
  | k8sRestConfig
  | k8sClientset
  | telegramBot
  | s3ClientNew
  | parseResourceID
  deriving DecidableEq, Repr

/-- The setup steps that construct clients for external endpoints; no
network request can be issued before one of these runs. -/
def clientSteps : List SetupStep :=
  [.k8sRestConfig, .k8sClientset, .telegramBot, .s3ClientNew]

/-- Model of `NewApplication`, restricted to the state the claims are about:
environment parsing is assumed to have produced `(id, ns, hasTgToken)`,
client constructions are assumed to succeed (their failures are
irrelevant to the claims), and the result is
`((resourceType, resourceKind), resourceName)`.  On a validation failure
the function returns before any client step. -/
def newApplication (id ns : String) (hasTgToken : Bool) :
    Except String ((String × String) × String) × List SetupStep :=
  match resourceConfigValidate id ns with
  | some e => (.error ("invalid config: " ++ e), [.envParse, .validateCfg])
  | none =>
      let parts :=
        match splitFirstSlash id.data with
        | some (t, n) => (String.mk t, String.mk n)
        | none => ("", "")
      (.ok (normalizeResource parts.1, parts.2),
       [.envParse, .validateCfg, .k8sRestConfig, .k8sClientset]
         ++ (if hasTgToken then [.telegramBot] else [])
         ++ [.s3ClientNew, .parseResourceID])

/-! Section: theorems settling the claims. -/

/-- When the scale read and the scale-to-zero write both succeed,
`scaleDown` succeeds, hands the snapshotted replica count to the restore
closure, and its trace is the read, the accepted zero write, and the
optional wait. -/
theorem scaleDown_ok (w : World) (n : Nat) (h1 : w.readReplicas = .ok n)
    (h2 : w.scaleZero = .ok ()) :
    scaleDown w =
      (.ok n, [.getScale .mainRun, .setScale 0 .mainRun true]
        ++ if w.waitEnabled then [Event.waitForPods] else []) := by
  simp [scaleDown, getReplicasCall, scaleCall, h1, h2]

/-- Claim C1 (code evaluation): with the upload failing with cause
`upload-cause` and the restore scale write failing with cause
`restore-cause`, `Run` reports an error whose causes mention the upload
failure twice and the restore failure not at all — the deferred block
wraps the outer `err` instead of the restore error — even though the
restore write did fail. -/
theorem c1_run_error_drops_restore_cause :
    (Run ⟨.ok 3, .ok (), false, .ok (), .ok (), .error "upload-cause",
          .error "restore-cause"⟩).1 =
        some (.join (.wrap "failed to upload to S3" (.msg "upload-cause"))
          (.wrap "failed to scale up"
            (.wrap "failed to upload to S3" (.msg "upload-cause")))) ∧
      "restore-cause" ∉
        (GoError.join (.wrap "failed to upload to S3" (.msg "upload-cause"))
          (.wrap "failed to scale up"
            (.wrap "failed to upload to S3" (.msg "upload-cause")))).causes ∧
      Event.setScale 3 .restoreScope false ∈
        (Run ⟨.ok 3, .ok (), false, .ok (), .ok (), .error "upload-cause",
          .error "restore-cause"⟩).2 := by
  refine ⟨rfl, by decide, by decide⟩

/-- Claim C2: whenever `scaleDown` succeeded (the scale read returned `n`
and the zero write was accepted), every run — whatever the archive,
upload, wait and restore outcomes, including failures induced by the main
deadline expiring — performs exactly one restore-scope scale write, and it
restores `n` under the fresh restore context, whose 1-minute deadline is
distinct from and independent of the run's 3-minute context. -/
theorem run_restore_exactly_once (w : World) (n : Nat)
    (h1 : w.readReplicas = .ok n) (h2 : w.scaleZero = .ok ()) :
    (Run w).2.filter isRestoreWrite =
        [.setScale n .restoreScope (exceptOk w.restoreWrite)] ∧
      ctxTimeoutSeconds .restoreScope = 60 ∧
      ctxTimeoutSeconds .mainRun = 180 ∧
      CtxTag.restoreScope ≠ CtxTag.mainRun := by
  have hsd := scaleDown_ok w n h1 h2
  refine ⟨?_, rfl, rfl, by decide⟩
  rcases w with ⟨rr, sz, we, wr, ar, ur, rwr⟩
  simp only at hsd
  rcases ar with e | u <;> rcases ur with e' | u' <;> rcases rwr with e'' | u'' <;>
    rcases we <;>
    simp [Run, hsd, restoreDefer, scaleCall, isRestoreWrite, exceptOk]

/-- Witness for C2 at a concrete world. -/
theorem run_restore_exactly_once_witness :
    (Run ⟨.ok 5, .ok (), true, .error "wait", .error "arch", .ok (),
        .error "up"⟩).2.filter isRestoreWrite =
        [.setScale 5 .restoreScope false] ∧
      ctxTimeoutSeconds .restoreScope = 60 ∧
      ctxTimeoutSeconds .mainRun = 180 ∧
      CtxTag.restoreScope ≠ CtxTag.mainRun := by
  have h := run_restore_exactly_once
    ⟨.ok 5, .ok (), true, .error "wait", .error "arch", .ok (), .error "up"⟩
    5 rfl rfl
  simpa [exceptOk] using h

/-- Claim C3: if the scale read or the scale-to-zero write fails, `Run`
returns an error, no restore-scope scale write is ever issued, no scale
write other than the failed zero attempt appears, and the workflow never
reaches the archive stage. -/
theorem run_aborts_without_restore (w : World)
    (h : (∃ e, w.readReplicas = .error e) ∨ (∃ e, w.scaleZero = .error e)) :
    (∃ ge, (Run w).1 = some ge) ∧
      (∀ ev ∈ (Run w).2, isRestoreWrite ev = false) ∧
      (∀ ev ∈ (Run w).2, isArchiveCall ev = false) ∧
      (∀ ev ∈ (Run w).2, isSetScale ev = true → ev = .setScale 0 .mainRun false) := by
  rcases w with ⟨rr, sz, we, wr, ar, ur, rwr⟩
  rcases rr with e | n
  · simp [Run, scaleDown, getReplicasCall, isRestoreWrite, isArchiveCall, isSetScale]
  · rcases sz with e' | u'
    · simp [Run, scaleDown, getReplicasCall, scaleCall, isRestoreWrite,
        isArchiveCall, isSetScale]
    · exfalso
      rcases h with ⟨e, he⟩ | ⟨e, he⟩ <;> simp at he

/-- Witness for C3 at a concrete world (failing zero write). -/
theorem run_aborts_without_restore_witness :
    (∃ ge, (Run ⟨.ok 4, .error "denied", false, .ok (), .ok (), .ok (),
        .ok ()⟩).1 = some ge) ∧
      (∀ ev ∈ (Run ⟨.ok 4, .error "denied", false, .ok (), .ok (), .ok (),
        .ok ()⟩).2, isRestoreWrite ev = false) ∧
      (∀ ev ∈ (Run ⟨.ok 4, .error "denied", false, .ok (), .ok (), .ok (),
        .ok ()⟩).2, isArchiveCall ev = false) ∧
      (∀ ev ∈ (Run ⟨.ok 4, .error "denied", false, .ok (), .ok (), .ok (),
        .ok ()⟩).2, isSetScale ev = true → ev = .setScale 0 .mainRun false) :=
  run_aborts_without_restore
    ⟨.ok 4, .error "denied", false, .ok (), .ok (), .ok (), .ok ()⟩
    (Or.inr ⟨"denied", rfl⟩)

/-- Claim C4 (round-trip law): if the scale read returned `n`, the zero
write was accepted and the restore write is accepted, the run issues an
accepted scale write of exactly `n` under the restore scope, and replaying
the run's accepted scale writes from any starting replica count ends at
exactly `n` — even when archiving or uploading fails. -/
theorem run_round_trip (w : World) (n m : Nat)
    (h1 : w.readReplicas = .ok n) (h2 : w.scaleZero = .ok ())
    (h3 : w.restoreWrite = .ok ()) :
    Event.setScale n .restoreScope true ∈ (Run w).2 ∧
      applyScale m (Run w).2 = n := by
  have hsd := scaleDown_ok w n h1 h2
  rcases w with ⟨rr, sz, we, wr, ar, ur, rwr⟩
  simp only at hsd
  cases h3
  rcases ar with e | u <;> rcases ur with e' | u' <;> rcases we <;>
    simp [Run, hsd, restoreDefer, scaleCall, applyScale]

/-- Witness for C4: a world whose archive fails still round-trips 7. -/
theorem run_round_trip_witness :
    Event.setScale 7 .restoreScope true ∈
        (Run ⟨.ok 7, .ok (), false, .ok (), .error "io", .ok (), .ok ()⟩).2 ∧
      applyScale 2
        (Run ⟨.ok 7, .ok (), false, .ok (), .error "io", .ok (), .ok ()⟩).2 = 7 :=
  run_round_trip ⟨.ok 7, .ok (), false, .ok (), .error "io", .ok (), .ok ()⟩
    7 2 rfl rfl rfl

/-- Claim C5 (counterexample): the claim fails on the code in two ways.
With the archive step failing (`disk full`), the run never deletes the
temporary (partially written) archive file — the deletion `defer` is only
registered after `archive` returns successfully.  And on an all-success
run the full trace shows the deletion happening *before* the restore-scope
scale write (the `defer`s run LIFO), not after restore. -/
theorem c5_counterexample :
    (Run ⟨.ok 3, .ok (), false, .ok (), .error "disk full", .ok (),
        .ok ()⟩).2.count .removeArchiveFile = 0 ∧
      (Run ⟨.ok 3, .ok (), false, .ok (), .ok (), .ok (), .ok ()⟩).2 =
        [.getScale .mainRun, .setScale 0 .mainRun true, .archiveCall true,
         .uploadCall true, .removeArchiveFile,
         .setScale 3 .restoreScope true, .notifyCall true] := by
  constructor <;> rfl

/-- Claim C5 (amended): when quiesce succeeded, a run whose archive step
fails never deletes the temporary file; a run whose archive step succeeds
deletes it exactly once, after the upload stage resolves and before the
restore-scope scale write — the trace is exactly the quiesce events, the
archive, the upload, the deletion, the restore write, the notification. -/
theorem run_archive_cleanup (w : World) (n : Nat)
    (h1 : w.readReplicas = .ok n) (h2 : w.scaleZero = .ok ()) :
    ((∃ e, w.archiveResult = .error e) →
        (Run w).2.count .removeArchiveFile = 0) ∧
      (w.archiveResult = .ok () →
        (Run w).2 =
          ([.getScale .mainRun, .setScale 0 .mainRun true]
              ++ (if w.waitEnabled then [Event.waitForPods] else []))
            ++ [.archiveCall true, .uploadCall (exceptOk w.uploadResult),
                .removeArchiveFile,
                .setScale n .restoreScope (exceptOk w.restoreWrite),
                .notifyCall (exceptOk w.uploadResult && exceptOk w.restoreWrite)]) := by
  have hsd := scaleDown_ok w n h1 h2
  rcases w with ⟨rr, sz, we, wr, ar, ur, rwr⟩
  simp only at hsd
  rcases ar with e | u <;> rcases ur with e' | u' <;> rcases rwr with e'' | u'' <;>
    rcases we <;>
    simp [Run, hsd, restoreDefer, scaleCall, exceptOk]

/-- Witness for the amended C5 at a concrete world (upload fails,
restore succeeds). -/
theorem run_archive_cleanup_witness :
    ((∃ e, (Except.ok () : Except String Unit) = .error e) →
        (Run ⟨.ok 2, .ok (), false, .ok (), .ok (), .error "net", .ok ()⟩).2.count
          .removeArchiveFile = 0) ∧
      ((Except.ok () : Except String Unit) = .ok () →
        (Run ⟨.ok 2, .ok (), false, .ok (), .ok (), .error "net", .ok ()⟩).2 =
          ([.getScale .mainRun, .setScale 0 .mainRun true] ++ ([] : List Event))
            ++ [.archiveCall true, .uploadCall false, .removeArchiveFile,
                .setScale 2 .restoreScope true, .notifyCall false]) := by
  have h := run_archive_cleanup
    ⟨.ok 2, .ok (), false, .ok (), .ok (), .error "net", .ok ()⟩ 2 rfl rfl
  simpa [exceptOk] using h

/-- Claim C6 (code evaluation): a ReplicaSet target named `my-rs` is
resolved by listing the namespace's ReplicaSets and filtering on owner
references — not by a direct get — while a Deployment target whose name
is literally `replicasets` is resolved by a direct get.  The branch is
chosen by comparing the workload's *name* with the string `"replicasets"`,
not by the target's kind. -/
theorem c6_path_chosen_by_name_not_kind :
    (getPodTemplateHash "my-rs" "ReplicaSet" (.ok [])
        (.ok ⟨"my-rs", [], [("pod-template-hash", "h1")]⟩)).2 =
        [.listReplicaSets] ∧
      (getPodTemplateHash "replicasets" "Deployment" (.ok [])
        (.ok ⟨"replicasets", [], [("pod-template-hash", "h2")]⟩)).2 =
        [.getReplicaSet "replicasets"] := by
  constructor <;> rfl

/-- Claim C7 (code evaluation): for a StatefulSet target `db` with a
successful ReplicaSet list response containing no item owned by it (a
StatefulSet owns no ReplicaSets), `getPodTemplateHash` dereferences the
nil `replicaset` pointer: the function panics instead of returning an
error. -/
theorem c7_nil_dereference_on_no_owner_match :
    (getPodTemplateHash "db" "StatefulSet" (.ok []) (.error "unused")).1 =
        .panicked ∧
      (getPodTemplateHash "db" "StatefulSet"
        (.ok [⟨"web-rs", [⟨"Deployment", "web"⟩], []⟩]) (.error "unused")).1 =
        .panicked := by
  constructor <;> rfl

/-- Claim C8: with waiting enabled and the wait failing (for any reason —
hash lookup failure, list failure, or deadline expiry surfacing as one of
those), `scaleDown` still succeeds and still hands over the restore
closure, and the run still proceeds to the archive stage, to the upload
stage when archiving succeeds, and to the restore-scope scale write. -/
theorem run_wait_failure_nonfatal (w : World) (n : Nat) (e : String)
    (h1 : w.readReplicas = .ok n) (h2 : w.scaleZero = .ok ())
    (h3 : w.waitEnabled = true) (h4 : w.waitResult = .error e) :
    (scaleDown w).1 = .ok n ∧
      Event.archiveCall (exceptOk w.archiveResult) ∈ (Run w).2 ∧
      (w.archiveResult = .ok () →
        Event.uploadCall (exceptOk w.uploadResult) ∈ (Run w).2) ∧
      Event.setScale n .restoreScope (exceptOk w.restoreWrite) ∈ (Run w).2 := by
  have hsd := scaleDown_ok w n h1 h2
  rcases w with ⟨rr, sz, we, wr, ar, ur, rwr⟩
  simp only at hsd
  rcases ar with e' | u' <;> rcases ur with e'' | u'' <;> rcases rwr with e₃ | u₃ <;>
    simp_all [Run, restoreDefer, scaleCall, exceptOk]

/-- Witness for C8 at a concrete world: wait fails, everything else
succeeds, and the run still archives, uploads and restores. -/
theorem run_wait_failure_nonfatal_witness :
    (scaleDown ⟨.ok 6, .ok (), true, .error "timeout", .ok (), .ok (),
        .ok ()⟩).1 = .ok 6 ∧
      Event.archiveCall true ∈
        (Run ⟨.ok 6, .ok (), true, .error "timeout", .ok (), .ok (), .ok ()⟩).2 ∧
      ((Except.ok () : Except String Unit) = .ok () →
        Event.uploadCall true ∈
          (Run ⟨.ok 6, .ok (), true, .error "timeout", .ok (), .ok (), .ok ()⟩).2) ∧
      Event.setScale 6 .restoreScope true ∈
        (Run ⟨.ok 6, .ok (), true, .error "timeout", .ok (), .ok (), .ok ()⟩).2 := by
  have h := run_wait_failure_nonfatal
    ⟨.ok 6, .ok (), true, .error "timeout", .ok (), .ok (), .ok ()⟩ 6 "timeout"
    rfl rfl rfl rfl
  simpa [exceptOk] using h

/-- Claim C9 (counterexample): with the first pod-list call failing
transiently and every later one reporting an empty pod set, the wait
terminates after exactly one poll with a `failed to list pods` error: the
transient failure is not retried on the next tick, and the loop has
terminated with the pod set neither observed empty nor the deadline
expired. -/
theorem c9_no_retry_on_transient_list_error :
    wait (.ok "h1") (fun k => if k = 0 then .error "transient" else .ok 0) 10 =
      some (.error (.wrap "failed to list pods" (.msg "transient")), 1) := rfl

/-- Claim C9 (amended): whenever the polling loop terminates (at poll
count `j`, having started at index `k`), every poll before the last saw a
non-empty pod set, the loop ended successfully exactly when the last poll
saw the empty set, and it ended with an error exactly when the last poll's
list call failed — a single pod-list failure aborts the wait immediately
with the wrapped list error (deadline expiry surfaces as such a failing
list call). -/
theorem podPollLoop_terminates_on_empty_or_error (p : Nat → Except String Nat) :
    ∀ fuel k r j, podPollLoop p k fuel = some (r, j) →
      k < j ∧
      (∀ i, k ≤ i → i + 1 < j → ∃ m, p i = .ok (m + 1)) ∧
      (r = .ok () ↔ p (j - 1) = .ok 0) ∧
      (∀ ge, r = .error ge →
        ∃ e, p (j - 1) = .error e ∧ ge = .wrap "failed to list pods" (.msg e)) := by
  intro fuel
  induction fuel with
  | zero => intro k r j h; simp [podPollLoop] at h
  | succ f ih =>
      intro k r j h
      rw [podPollLoop] at h
      cases hp : p k with
      | error e =>
          rw [hp] at h
          simp only [Option.some.injEq, Prod.mk.injEq] at h
          obtain ⟨hr, hj⟩ := h
          subst hr; subst hj
          refine ⟨Nat.lt_succ_self k, ?_, ?_, ?_⟩
          · intro i hki hij; omega
          · simp [hp]
          · intro ge hge
            simp only [Except.error.injEq] at hge
            exact ⟨e, by simpa using hp, hge.symm⟩
      | ok m =>
          cases m with
          | zero =>
              rw [hp] at h
              simp only [Option.some.injEq, Prod.mk.injEq] at h
              obtain ⟨hr, hj⟩ := h
              subst hr; subst hj
              refine ⟨Nat.lt_succ_self k, ?_, ?_, ?_⟩
              · intro i hki hij; omega
              · simp [hp]
              · intro ge hge; cases hge
          | succ m' =>
              rw [hp] at h
              obtain ⟨h1, h2, h3, h4⟩ := ih (k + 1) r j h
              refine ⟨by omega, ?_, h3, h4⟩
              intro i hki hij
              rcases Nat.eq_or_lt_of_le hki with hik | hik
              · exact ⟨m', by rw [hik] at hp; exact hp⟩
              · exact h2 i hik hij

/-- Witness for the amended C9: a loop whose first poll sees the empty set
terminates after one poll with success. -/
theorem podPollLoop_terminates_witness :
    0 < 1 ∧
      (∀ i, 0 ≤ i → i + 1 < 1 →
        ∃ m, (fun _ => (.ok 0 : Except String Nat)) i = .ok (m + 1)) ∧
      ((Except.ok () : Except GoError Unit) = .ok () ↔
        (fun _ => (.ok 0 : Except String Nat)) (1 - 1) = .ok 0) ∧
      (∀ ge, (Except.ok () : Except GoError Unit) = .error ge →
        ∃ e, (fun _ => (.ok 0 : Except String Nat)) (1 - 1) = .error e ∧
          ge = .wrap "failed to list pods" (.msg e)) :=
  podPollLoop_terminates_on_empty_or_error (fun _ => .ok 0) 1 0 (.ok ()) 1 rfl

/-! Section: string helper lemmas for the identifier parsing. -/

theorem splitFirstSlash_append (a b : List Char) (h : '/' ∉ a) :
    splitFirstSlash (a ++ '/' :: b) = some (a, b) := by
  induction a with
  | nil => simp [splitFirstSlash]
  | cons c cs ih =>
      simp only [List.mem_cons, not_or] at h
      have hc : c ≠ '/' := Ne.symm h.1
      simp [splitFirstSlash, hc, ih h.2]

theorem splitFirstSlash_eq_none (cs : List Char) (h : '/' ∉ cs) :
    splitFirstSlash cs = none := by
  induction cs with
  | nil => rfl
  | cons c cs ih =>
      simp only [List.mem_cons, not_or] at h
      have hc : c ≠ '/' := Ne.symm h.1
      simp [splitFirstSlash, hc, ih h.2]

theorem string_mk_data (s : String) : String.mk s.data = s := by
  cases s
  rfl

theorem string_eq_empty_iff (s : String) : s = "" ↔ s.data = [] := by
  cases s
  simp [String.ext_iff]

theorem data_slash_append (t n : String) :
    (t ++ "/" ++ n).data = t.data ++ '/' :: n.data := by
  simp [String.data_append]

theorem data_slash_end (t : String) :
    (t ++ "/").data = t.data ++ '/' :: ([] : List Char) := by
  simp [String.data_append]

/-- The six accepted `TYPE` strings together with the normalized
`(resourceType, resourceKind)` `NewApplication` derives from each. -/
def kindTable : List (String × String × String) :=
  [("deployment", "deployments", "Deployment"),
   ("deployments", "deployments", "Deployment"),
   ("statefulset", "statefulsets", "StatefulSet"),
   ("statefulsets", "statefulsets", "StatefulSet"),
   ("replicaset", "replicasets", "ReplicaSet"),
   ("replicasets", "replicasets", "ReplicaSet")]

/-- Claim C10 (counterexample): `Deployment/foo` is a well-formed
identifier up to case, but validation rejects it — the `switch` matches
the lowercase type strings only, so `TYPE` is not case-insensitive. -/
theorem c10_type_not_case_insensitive :
    validID "Deployment/foo" =
        some "TYPE must be deployment(s), statefulset(s) or replicaset(s)" ∧
      (newApplication "Deployment/foo" "default" false).1 =
        .error
          "invalid config: id: TYPE must be deployment(s), statefulset(s) or replicaset(s)" := by
  constructor <;> rfl

/-- Claim C10 (amended): `TYPE` is plural-insensitive but case-sensitive
(the six lowercase forms only).  For every identifier built from a
lowercase `TYPE` of the table and a non-empty name, validation passes and
`NewApplication` normalizes to the correct kind; identifiers with no
`/`, with an empty name, or with a `TYPE` outside the lowercase table
fail validation; and whenever validation fails, `NewApplication` returns
after the validate step, before any client-constructing (network-capable)
step. -/
theorem resource_id_parsing (name ns : String) (hn : name ≠ "")
    (hns : ns ≠ "") :
    (∀ t ty k, (t, ty, k) ∈ kindTable →
        resourceConfigValidate (t ++ "/" ++ name) ns = none ∧
        (newApplication (t ++ "/" ++ name) ns false).1 = .ok ((ty, k), name)) ∧
      (∀ id, '/' ∉ id.data → resourceConfigValidate id ns ≠ none) ∧
      (∀ t, '/' ∉ t.data → resourceConfigValidate (t ++ "/") ns ≠ none) ∧
      (∀ t, '/' ∉ t.data → t ∉ validTypes →
        resourceConfigValidate (t ++ "/" ++ name) ns ≠ none) ∧
      (∀ id, resourceConfigValidate id ns ≠ none →
        (newApplication id ns false).2 = [.envParse, .validateCfg] ∧
        ∀ s ∈ clientSteps, s ∉ (newApplication id ns false).2) := by
  have hnd : name.data ≠ [] := fun h => hn ((string_eq_empty_iff name).mpr h)
  refine ⟨?_, ?_, ?_, ?_, ?_⟩
  · intro t ty k hmem
    have hval : ∀ u : String, u ∈ validTypes → '/' ∉ u.data → u ++ "/" ++ name ≠ "" →
        resourceConfigValidate (u ++ "/" ++ name) ns = none ∧
        (newApplication (u ++ "/" ++ name) ns false).1 =
          .ok (normalizeResource u, name) := by
      intro u hu hslash hne
      have hsplit : splitFirstSlash ((u ++ "/" ++ name)).data =
          some (u.data, name.data) := by
        rw [data_slash_append]
        exact splitFirstSlash_append u.data name.data hslash
      have hvid : validID (u ++ "/" ++ name) = none := by
        rw [validID, hsplit]
        simp [string_mk_data, hu, List.isEmpty_eq_true, hnd]
      have hrc : resourceConfigValidate (u ++ "/" ++ name) ns = none := by
        rw [resourceConfigValidate, if_neg hne, hvid]
        simp [hns]
      refine ⟨hrc, ?_⟩
      rw [newApplication, hrc, hsplit]
    simp only [kindTable, List.mem_cons, List.not_mem_nil, or_false,
      Prod.mk.injEq] at hmem
    rcases hmem with ⟨ht, hty, hk⟩ | ⟨ht, hty, hk⟩ | ⟨ht, hty, hk⟩ |
        ⟨ht, hty, hk⟩ | ⟨ht, hty, hk⟩ | ⟨ht, hty, hk⟩ <;>
      subst ht <;> subst hty <;> subst hk <;>
      exact
        let h := hval _ (by decide) (by decide)
          (fun hcon =>
            by simpa [data_slash_append] using (string_eq_empty_iff _).mp hcon)
        ⟨h.1, by rw [h.2]; rfl⟩
  · intro id hid
    by_cases hide : id = ""
    · simp [resourceConfigValidate, hide]
    · simp [resourceConfigValidate, hide, validID, splitFirstSlash_eq_none id.data hid]
  · intro t ht
    have hne : t ++ "/" ≠ "" := fun hcon => by
      have := (string_eq_empty_iff _).mp hcon
      rw [data_slash_end] at this
      simp at this
    have hsplit : splitFirstSlash ((t ++ "/")).data = some (t.data, []) := by
      rw [data_slash_end]
      exact splitFirstSlash_append t.data [] ht
    have hvid : ∃ e, validID (t ++ "/") = some e := by
      by_cases hc : String.mk t.data ∈ validTypes
      · exact ⟨"NAME must not be empty", by rw [validID, hsplit]; simp [hc]⟩
      · exact ⟨"TYPE must be deployment(s), statefulset(s) or replicaset(s)",
          by rw [validID, hsplit]; simp [hc]⟩
    obtain ⟨e, he⟩ := hvid
    rw [resourceConfigValidate, if_neg hne, he]
    simp
  · intro t ht htv
    have hne : t ++ "/" ++ name ≠ "" := fun hcon => by
      have := (string_eq_empty_iff _).mp hcon
      rw [data_slash_append] at this
      simp at this
    have hsplit : splitFirstSlash ((t ++ "/" ++ name)).data =
        some (t.data, name.data) := by
      rw [data_slash_append]
      exact splitFirstSlash_append t.data name.data ht
    have htv' : String.mk t.data ∉ validTypes := by
      rw [string_mk_data]
      exact htv
    rw [resourceConfigValidate, if_neg hne, validID, hsplit]
    simp [htv']
  · intro id hne
    cases hrv : resourceConfigValidate id ns with
    | none => exact absurd hrv hne
    | some e =>
        rw [newApplication, hrv]
        refine ⟨rfl, ?_⟩
        show ∀ s ∈ clientSteps, s ∉ [SetupStep.envParse, SetupStep.validateCfg]
        decide

/-- Witness for the amended C10 at `name = "web"`, `ns = "default"`. -/
theorem resource_id_parsing_witness :
    (∀ t ty k, (t, ty, k) ∈ kindTable →
        resourceConfigValidate (t ++ "/" ++ "web") "default" = none ∧
        (newApplication (t ++ "/" ++ "web") "default" false).1 =
          .ok ((ty, k), "web")) ∧
      (∀ id, '/' ∉ id.data → resourceConfigValidate id "default" ≠ none) ∧
      (∀ t, '/' ∉ t.data → resourceConfigValidate (t ++ "/") "default" ≠ none) ∧
      (∀ t, '/' ∉ t.data → t ∉ validTypes →
        resourceConfigValidate (t ++ "/" ++ "web") "default" ≠ none) ∧
      (∀ id, resourceConfigValidate id "default" ≠ none →
        (newApplication id "default" false).2 = [.envParse, .validateCfg] ∧
        ∀ s ∈ clientSteps, s ∉ (newApplication id "default" false).2) :=
  resource_id_parsing "web" "default" (by decide) (by decide)

end K8sBackup
